import Mathlib

/-!
Verification of the bot pool allocation core of `util.py`
(discord-stock-ticker-bot).

The embedding models, from the source:

* the pool store (`newbots` table) as a list of `PoolEntry` rows in
  insertion order; `fetchone` is the head of the result set;
* the SQL statements used by `check_existing_bot`, `get_new_bot` and
  `add_bot` as pure functions on that list;
* Python exceptions as an `Except PyExc` result; code paths on which the
  source cannot raise are total functions;
* the external HTTP world through small oracles: a validator response
  (`HResp` carrying a JSON document), a `postOk` flag for the ticker
  service `POST`, a `renameOk` flag for the Discord rename `PATCH`, and a
  `World` recording the external bot display name;
* Python truthiness where the source branches on it (`if not
  bot_details[1]`, `if data[...]['error']`).

Interleaved executions of `get_new_bot` (one atomic step per DB
statement) are modelled separately by `claimStep` / `runTwo`.
-/

namespace TickerBot

/-- Minimal JSON values, as produced by `resp.json()`.  Numbers are
modelled as integers; no claim depends on numeric payloads. -/
inductive J where
  | null
  | bool (b : Bool)
  | str (s : String)
  | num (n : Int)
  | arr (xs : List J)
  | obj (kvs : List (String × J))

/-- Python exceptions that the modelled code can raise. -/
inductive PyExc where
  | keyError
  | typeError
  | indexError
  | attrError
  | integrityError
deriving Repr, DecidableEq

/-- Result of one HTTP request as seen by the bare `try/except` around
`raise_for_status()` and `.json()`: `fail` covers transport errors,
non-success statuses and JSON-decode failures (all caught together in the
source); `ok` carries the decoded document. -/
inductive HResp where
  | fail
  | ok (body : J)

/-- Lookup of a key in a JSON object's key/value list. -/
def jlookup (kvs : List (String × J)) (k : String) : Option J :=
  match kvs with
  | [] => none
  | (k', v) :: rest => if k' = k then some v else jlookup rest k

/-- Python subscript `j[k]` with a string key: `KeyError` when the key is
missing, `TypeError` when the value is not a dict. -/
def jget (j : J) (k : String) : Except PyExc J :=
  match j with
  | .obj kvs =>
    match jlookup kvs k with
    | some v => .ok v
    | none => .error .keyError
  | _ => .error .typeError

/-- Python subscript `j[i]` with an integer index: `IndexError` when out
of range, `TypeError` when the value is not a list. -/
def jindex (j : J) (i : Nat) : Except PyExc J :=
  match j with
  | .arr xs =>
    match xs.get? i with
    | some v => .ok v
    | none => .error .indexError
  | _ => .error .typeError

/-- Equality test of a JSON value against a string, as Python `==` would
decide it inside a list membership test (cross-type comparisons are
false). -/
def jIsStr (j : J) (k : String) : Bool :=
  match j with
  | .str s => s = k
  | _ => false

/-- Python `k in j`: key membership for dicts, element membership for
lists, substring for strings, `TypeError` otherwise. -/
def jHasMember (j : J) (k : String) : Except PyExc Bool :=
  match j with
  | .obj kvs => .ok (kvs.any fun kv => kv.1 = k)
  | .arr xs => .ok (xs.any fun x => jIsStr x k)
  | .str s => .ok (decide ((s.splitOn k).length > 1))
  | _ => .error .typeError

/-- Python truthiness of a JSON value. -/
def jTruthy : J → Bool
  | .null => false
  | .bool b => b
  | .str s => !s.isEmpty
  | .num n => decide (n ≠ 0)
  | .arr xs => !xs.isEmpty
  | .obj kvs => !kvs.isEmpty

/-- Python `str.lower()` (ASCII case mapping, applied character-wise, as
`String.toLower` does; spelled out so that it reduces). -/
def strLower (s : String) : String :=
  ⟨s.data.map Char.toLower⟩

/-- Python `str.upper()` (ASCII case mapping, applied character-wise). -/
def strUpper (s : String) : String :=
  ⟨s.data.map Char.toUpper⟩

/-- Python truthiness of the second member of the tuple returned by
`get_new_bot` (`None` or a token string): `None` and the empty string are
falsy. -/
def optStrFalsy : Option String → Bool
  | none => true
  | some s => s.isEmpty

/-- One row of the `newbots` table. -/
structure PoolEntry where
  client_id : String
  token : String
  ticker : Option String
  typ : Option String
deriving Repr, DecidableEq

/-- The `newbots` table, rows in insertion (rowid) order. -/
abbrev Store := List PoolEntry

/-- SQL `SELECT client_id, token FROM newbots WHERE ticker = ?` followed
by `fetchone()`: first row whose non-null ticker equals the parameter
exactly (SQL `NULL = x` never matches). -/
def selectByTicker (tkr : String) (s : Store) : Option PoolEntry :=
  (s.filter fun e => e.ticker = some tkr).head?

/-- SQL `SELECT client_id, token FROM newbots WHERE ticker IS NULL`
followed by `fetchone()`: first unclaimed row. -/
def selectUnclaimed (s : Store) : Option PoolEntry :=
  (s.filter fun e => e.ticker = none).head?

/-- SQL `UPDATE newbots SET ticker = ?, type = ? WHERE client_id = ?`:
every row with the given client_id gets the new ticker and type. -/
def updateByClientId (cid newTicker newType : String) (s : Store) : Store :=
  s.map fun e =>
    if e.client_id = cid then { e with ticker := some newTicker, typ := some newType } else e

/-- Rowcount of that UPDATE: number of rows matched by the WHERE clause. -/
def updateRowcount (cid : String) (s : Store) : Nat :=
  (s.filter fun e => e.client_id = cid).length

/-- `check_existing_bot(ticker)`: looks up the given ticker (exactly as
passed, no normalization) and returns `(client_id, token)` of the first
match, `None` otherwise.  The source's `except TypeError` and `if not
existing_bot` branches both collapse to the no-row case. -/
def check_existing_bot (tkr : String) (s : Store) : Option (String × String) :=
  match selectByTicker tkr s with
  | none => none
  | some e => some (e.client_id, e.token)

/-- `get_new_bot(ticker, typ)`: existing-binding short-circuit returning
`(client_id, None)`; otherwise select one unclaimed row, claim it with
`UPDATE ... SET ticker = ticker.lower(), type = typ WHERE client_id = ?`,
and return `(client_id, token)`.  Returns `none` (the empty tuple `()`)
on pool exhaustion or zero rowcount; in the zero-rowcount branch the
connection is never committed, so the store is unchanged there. -/
def get_new_bot (tkr typ : String) (s : Store) : Option (String × Option String) × Store :=
  match check_existing_bot tkr s with
  | some p => (some (p.1, none), s)
  | none =>
    match selectUnclaimed s with
    | none => (none, s)
    | some nb =>
      if updateRowcount nb.client_id s = 0 then (none, s)
      else (some (nb.client_id, some nb.token), updateByClientId nb.client_id (strLower tkr) typ s)

/-- External display name of the bot addressed by the token in play. -/
structure World where
  botName : Option String
deriving Repr, DecidableEq

/-- `change_bot_username(token, username)`: PATCHes the upper-cased name;
on a non-success response returns `False` (here `none`) and leaves the
external name unchanged; on success the external name becomes
`username.upper()` and the response echoes it.  The `token` argument is
abstracted into the `renameOk` oracle flag. -/
def change_bot_username (renameOk : Bool) (username : String) (w : World) :
    Option String × World :=
  if renameOk then
    (some (strUpper username), { w with botName := some (strUpper username) })
  else (none, w)

/-- `create_bot(ticker, name, client_id, token, is_crypto)`: POSTs the
ticker payload (outcome abstracted as `postOk`); on status 200 it calls
`change_bot_username(token, name)` *discarding its result* and returns
`True`; otherwise returns `False`.  Payload fields that do not affect
control flow (ticker, client_id, token, is_crypto) are omitted. -/
def create_bot (postOk renameOk : Bool) (name : String) (w : World) : Bool × World :=
  if postOk then
    let r := change_bot_username renameOk name w
    (true, r.2)
  else (false, w)

/-- Which value the allocation response's `client_id` field holds: a
client-id string, or (as `stock`'s fallback path builds it) the whole
`(client_id, token)` tuple. -/
inductive CidField where
  | str (cid : String)
  | pair (cid tok : String)
deriving Repr, DecidableEq

/-- Shape of an allocation response: `{'client_id': c}`,
`{'client_id': c, 'existing': True}`, or `{'error': msg}`. -/
inductive AllocResp where
  | ok (c : CidField)
  | existing (c : CidField)
  | err (msg : String)
deriving Repr, DecidableEq

/-- `crypto(id)`: the crypto allocation entry point.  `vres` is the
outcome of the `crypto_validate(id.lower())` call, with the payload pair
specialized to strings (catalog ids and symbols are strings); a raised
exception in validation propagates uncaught, exactly as in the source
where `crypto` has no handler. -/
def crypto (vres : Except PyExc (Option (String × String))) (postOk renameOk : Bool)
    (id : String) (s : Store) (w : World) : Except PyExc (AllocResp × Store × World) :=
  match vres with
  | .error e => .error e
  | .ok none =>
    match check_existing_bot (strLower id) s with
    | some p => .ok (.existing (.str p.1), s, w)
    | none => .ok (.err ("unable to validate coin id: " ++ id), s, w)
  | .ok (some cd) =>
    let r := get_new_bot cd.1 "crypto" s
    match r.1 with
    | none =>
      .ok (.err "there are no more unclaimed bots. come back tomorrow and there might be more available", r.2, w)
    | some bd =>
      if optStrFalsy bd.2 then .ok (.existing (.str bd.1), r.2, w)
      else
        let cb := create_bot postOk renameOk cd.1 w
        if cb.1 then .ok (.ok (.str bd.1), r.2, cb.2)
        else .ok (.err "having trouble starting new bot", r.2, cb.2)

/-- `stock(id)`: the stock allocation entry point.  Identical control
flow to `crypto` except for the messages and one slip preserved from the
source: the validation-failure fallback returns
`{'client_id': possible_id, 'existing': True}` with the *whole*
`(client_id, token)` tuple (line 350), where `crypto` uses
`possible_id[0]`. -/
def stock (vres : Except PyExc (Option (String × String))) (postOk renameOk : Bool)
    (id : String) (s : Store) (w : World) : Except PyExc (AllocResp × Store × World) :=
  match vres with
  | .error e => .error e
  | .ok none =>
    match check_existing_bot (strLower id) s with
    | some p => .ok (.existing (.pair p.1 p.2), s, w)
    | none => .ok (.err ("unable to validate stock id: " ++ id), s, w)
  | .ok (some cd) =>
    let r := get_new_bot cd.1 "stock" s
    match r.1 with
    | none => .ok (.err "no more new bots avalible", r.2, w)
    | some bd =>
      if optStrFalsy bd.2 then .ok (.existing (.str bd.1), r.2, w)
      else
        let cb := create_bot postOk renameOk cd.1 w
        if cb.1 then .ok (.ok (.str bd.1), r.2, cb.2)
        else .ok (.err "having trouble starting new bot", r.2, cb.2)

/-- Store left by `crypto` (on an uncaught exception the only raise point
is the validation call, before any store operation, so the store is the
input one). -/
def cryptoStore (vres : Except PyExc (Option (String × String))) (postOk renameOk : Bool)
    (id : String) (s : Store) (w : World) : Store :=
  match crypto vres postOk renameOk id s w with
  | .ok (_, s', _) => s'
  | .error _ => s

/-- Store left by `stock`. -/
def stockStore (vres : Except PyExc (Option (String × String))) (postOk renameOk : Bool)
    (id : String) (s : Store) (w : World) : Store :=
  match stock vres postOk renameOk id s w with
  | .ok (_, s', _) => s'
  | .error _ => s

/-- Modelled from the spec: the `CREATE TABLE` for `newbots` is not under
`src/`; §6 gives the logical schema with `client_id` and `token` UNIQUE.
A plain sqlite `INSERT INTO newbots VALUES (?, ?, NULL, NULL)` violating
either constraint raises `IntegrityError` and inserts nothing. -/
def insertNewbots (client_id token : String) (s : Store) : Except PyExc Store :=
  if s.any fun e => e.client_id = client_id ∨ e.token = token then .error .integrityError
  else .ok (s ++ [⟨client_id, token, none, none⟩])

/-- `add_bot(client_id, token)`: first verifies the token is live by
renaming the bot to 'new ticker bot' (returning `False` if that fails),
then INSERTs the credential as an unclaimed row.  The `rowcount == 0`
check after the insert is kept from the source (a failed insert raises
before it, so it never fires). -/
def add_bot (renameOk : Bool) (client_id token : String) (s : Store) (w : World) :
    Except PyExc Bool × Store × World :=
  let r := change_bot_username renameOk "new ticker bot" w
  match r.1 with
  | none => (.ok false, s, r.2)
  | some _ =>
    match insertNewbots client_id token s with
    | .error e => (.error e, s, r.2)
    | .ok s' =>
      if s'.length - s.length = 0 then (.ok false, s, r.2)
      else (.ok true, s', r.2)

/-- `crypto_validate(id)`: on a caught HTTP/JSON failure returns the
empty tuple (here `none`); otherwise returns `(data['id'],
data['symbol'])` — both subscripts are *outside* the `try`, so a missing
key raises `KeyError` uncaught. -/
def crypto_validate (r : HResp) : Except PyExc (Option (J × J)) :=
  match r with
  | .fail => .ok none
  | .ok data =>
    match jget data "id" with
    | .error e => .error e
    | .ok i =>
      match jget data "symbol" with
      | .error e => .error e
      | .ok sy => .ok (some (i, sy))

/-- `stock_validate(id)`: on a caught HTTP/JSON failure returns `None`;
then, outside any `try`, inspects `data['quoteSummary']['error']`
(truthy means invalid), requires `'currencySymbol'` among the keys of
`data['quoteSummary']['result'][0]['price']`, and returns the lower-cased
`price['symbol']` as both components; a missing key raises `KeyError`
uncaught, a non-string symbol raises at `.lower()`. -/
def stock_validate (r : HResp) : Except PyExc (Option (String × String)) :=
  match r with
  | .fail => .ok none
  | .ok data =>
    match jget data "quoteSummary" with
    | .error e => .error e
    | .ok qs =>
      match jget qs "error" with
      | .error e => .error e
      | .ok er =>
        if jTruthy er then .ok none
        else
          match jget qs "result" with
          | .error e => .error e
          | .ok res =>
            match jindex res 0 with
            | .error e => .error e
            | .ok r0 =>
              match jget r0 "price" with
              | .error e => .error e
              | .ok price =>
                match jHasMember price "currencySymbol" with
                | .error e => .error e
                | .ok hasCur =>
                  if !hasCur then .ok none
                  else
                    match jget price "symbol" with
                    | .error e => .error e
                    | .ok sym =>
                      match sym with
                      | .str symStr => .ok (some (strLower symStr, strLower symStr))
                      | _ => .error .attrError

/-- Local state of one in-flight `get_new_bot` call, for interleaved
executions: program counter 0 = before the existing-binding lookup, 1 =
before the unclaimed SELECT, 2 = before the claiming UPDATE (with the
fetched row in `sel`), 3 = returned (`res` holds the return value,
`some none` being the empty tuple). -/
structure ClaimProc where
  tkr : String
  typ : String
  pc : Nat
  sel : Option PoolEntry
  res : Option (Option (String × Option String))
deriving Repr, DecidableEq

/-- One atomic database statement of `get_new_bot` executed by one
process against the shared store.  Each SQL statement is atomic; the
UPDATE, its rowcount check and the commit are collapsed into a single
atomic step (a *more* serialized model than sqlite's, so any anomaly
exhibited here is realizable). -/
def claimStep : Store × ClaimProc → Store × ClaimProc
  | (s, p) =>
    match p.pc with
    | 0 =>
      match check_existing_bot p.tkr s with
      | some q => (s, { p with pc := 3, res := some (some (q.1, none)) })
      | none => (s, { p with pc := 1 })
    | 1 =>
      match selectUnclaimed s with
      | none => (s, { p with pc := 3, res := some none })
      | some nb => (s, { p with pc := 2, sel := some nb })
    | 2 =>
      match p.sel with
      | some nb =>
        if updateRowcount nb.client_id s = 0 then (s, { p with pc := 3, res := some none })
        else (updateByClientId nb.client_id (strLower p.tkr) p.typ s,
              { p with pc := 3, res := some (some (nb.client_id, some nb.token)) })
      | none => (s, p)
    | _ => (s, p)

/-- Run two concurrent `get_new_bot` calls under a schedule: `true`
steps the first process, `false` the second. -/
def runTwo (sched : List Bool) (s : Store) (p q : ClaimProc) :
    Store × ClaimProc × ClaimProc :=
  match sched with
  | [] => (s, p, q)
  | b :: rest =>
    if b then
      let r := claimStep (s, p)
      runTwo rest r.1 r.2 q
    else
      let r := claimStep (s, q)
      runTwo rest r.1 p r.2

/-! Helper lemmas about the pool-store primitives. -/

/-- A row fetched by the unclaimed SELECT is a row of the store with a
null ticker. -/
theorem selectUnclaimed_eq_some {s : Store} {nb : PoolEntry}
    (h : selectUnclaimed s = some nb) : nb ∈ s ∧ nb.ticker = none := by
  unfold selectUnclaimed at h
  have hmem := List.mem_of_mem_head? (h ▸ Option.mem_some_self nb)
  have := List.mem_filter.mp hmem
  exact ⟨this.1, by simpa using this.2⟩

/-- A row fetched by the ticker SELECT is a row of the store carrying
exactly that ticker. -/
theorem selectByTicker_eq_some {tkr : String} {s : Store} {e : PoolEntry}
    (h : selectByTicker tkr s = some e) : e ∈ s ∧ e.ticker = some tkr := by
  unfold selectByTicker at h
  have hmem := List.mem_of_mem_head? (h ▸ Option.mem_some_self e)
  have := List.mem_filter.mp hmem
  exact ⟨this.1, by simpa using this.2⟩

/-- The ticker SELECT returns no row exactly when no row carries that
ticker. -/
theorem selectByTicker_eq_none {tkr : String} {s : Store} :
    selectByTicker tkr s = none ↔ ∀ e ∈ s, e.ticker ≠ some tkr := by
  unfold selectByTicker
  rw [List.head?_eq_none_iff, List.filter_eq_nil_iff]
  simp

/-- `check_existing_bot` returns `None` exactly when no row carries the
given ticker, verbatim. -/
theorem check_existing_bot_eq_none {tkr : String} {s : Store} :
    check_existing_bot tkr s = none ↔ ∀ e ∈ s, e.ticker ≠ some tkr := by
  rw [← selectByTicker_eq_none]
  unfold check_existing_bot
  cases selectByTicker tkr s <;> simp

/-- The claiming UPDATE does not change the number of rows. -/
theorem updateByClientId_length (cid u ty : String) (s : Store) :
    (updateByClientId cid u ty s).length = s.length :=
  s.length_map _

/-- Every row of the updated store is the image of a row of the old
store. -/
theorem mem_updateByClientId {cid u ty : String} {s : Store} {e2 : PoolEntry}
    (h : e2 ∈ updateByClientId cid u ty s) :
    ∃ a ∈ s,
      e2 = if a.client_id = cid then { a with ticker := some u, typ := some ty } else a := by
  obtain ⟨a, ha, hae⟩ := List.mem_map.mp h
  exact ⟨a, ha, hae.symm⟩

/-- In a store whose client ids are pairwise distinct, two rows with the
same client id are the same row. -/
theorem eq_of_client_id_of_nodup {s : Store}
    (hnd : (s.map PoolEntry.client_id).Nodup) {a b : PoolEntry}
    (ha : a ∈ s) (hb : b ∈ s) (hab : a.client_id = b.client_id) : a = b :=
  List.inj_on_of_nodup_map hnd ha hb hab

/-- The store left by `get_new_bot` is either untouched or the result of
the claiming UPDATE on a fetched unclaimed row. -/
theorem get_new_bot_store_cases (tkr typ : String) (s : Store) :
    (get_new_bot tkr typ s).2 = s ∨
    ∃ nb, selectUnclaimed s = some nb ∧
      (get_new_bot tkr typ s).2 = updateByClientId nb.client_id (strLower tkr) typ s := by
  unfold get_new_bot
  cases check_existing_bot tkr s with
  | some p => simp
  | none =>
    cases h : selectUnclaimed s with
    | none => simp
    | some nb =>
      by_cases hrc : updateRowcount nb.client_id s = 0
      · simp [hrc]
      · exact Or.inr ⟨nb, rfl, by simp [hrc]⟩

/-- Inversion of a fresh claim: a `get_new_bot` call that returned a
client id *with* a token went through the claim path, on a store with no
binding for the ticker, and its store is the claimed one. -/
theorem get_new_bot_fresh {tkr typ : String} {s : Store} {cid : String} {tok : String}
    (h : (get_new_bot tkr typ s).1 = some (cid, some tok)) :
    ∃ nb, check_existing_bot tkr s = none ∧ selectUnclaimed s = some nb ∧
      cid = nb.client_id ∧ tok = nb.token ∧
      (get_new_bot tkr typ s).2 = updateByClientId nb.client_id (strLower tkr) typ s := by
  unfold get_new_bot at h
  split at h
  · simp at h
  · rename_i hce
    split at h
    · simp at h
    · rename_i nb hsu
      split at h
      · simp at h
      · rename_i hrc
        simp at h
        exact ⟨nb, hce, hsu, h.1.symm, h.2.symm, by simp [get_new_bot, hce, hsu, hrc]⟩

/-- After claiming the fetched row `nb` with ticker value `u` in a store
previously holding no row with ticker `u`, the ticker lookup for `u`
finds a row, and that row carries `nb`'s client id. -/
theorem selectByTicker_after_claim {s : Store} {nb : PoolEntry} {u ty : String}
    (hmem : nb ∈ s) (hnone : ∀ e ∈ s, e.ticker ≠ some u) :
    ∃ e0, selectByTicker u (updateByClientId nb.client_id u ty s) = some e0 ∧
      e0.client_id = nb.client_id := by
  have hnbmem : ({ nb with ticker := some u, typ := some ty } : PoolEntry) ∈
      updateByClientId nb.client_id u ty s := by
    unfold updateByClientId
    exact List.mem_map.mpr ⟨nb, hmem, by simp⟩
  have hfil : ({ nb with ticker := some u, typ := some ty } : PoolEntry) ∈
      (updateByClientId nb.client_id u ty s).filter fun e => e.ticker = some u := by
    rw [List.mem_filter]
    exact ⟨hnbmem, by simp⟩
  have hne : ((updateByClientId nb.client_id u ty s).filter fun e => e.ticker = some u) ≠ [] :=
    List.ne_nil_of_mem hfil
  refine ⟨((updateByClientId nb.client_id u ty s).filter fun e => e.ticker = some u).head hne,
    ?_, ?_⟩
  · unfold selectByTicker
    exact List.head?_eq_head hne
  · have hm := List.head_mem hne
    have hp := List.mem_filter.mp hm
    obtain ⟨a, ha, hae⟩ := mem_updateByClientId hp.1
    by_cases hc : a.client_id = nb.client_id
    · rw [hae, if_pos hc]
      exact hc
    · exfalso
      rw [hae, if_neg hc] at hp
      exact hnone a ha (by simpa using hp.2)

/-- Unfolding equation of `crypto` at a failed validation. -/
theorem crypto_ok_none (postOk renameOk : Bool) (id : String) (s : Store) (w : World) :
    crypto (.ok none) postOk renameOk id s w =
      (match check_existing_bot (strLower id) s with
       | some p => .ok (.existing (.str p.1), s, w)
       | none => .ok (.err ("unable to validate coin id: " ++ id), s, w)) := rfl

/-- Unfolding equation of `crypto` at a successful validation. -/
theorem crypto_ok_some (ca cb : String) (postOk renameOk : Bool) (id : String)
    (s : Store) (w : World) :
    crypto (.ok (some (ca, cb))) postOk renameOk id s w =
      (match (get_new_bot ca "crypto" s).1 with
       | none =>
         .ok (.err "there are no more unclaimed bots. come back tomorrow and there might be more available",
           (get_new_bot ca "crypto" s).2, w)
       | some bd =>
         if optStrFalsy bd.2 then
           .ok (.existing (.str bd.1), (get_new_bot ca "crypto" s).2, w)
         else if (create_bot postOk renameOk ca w).1 then
           .ok (.ok (.str bd.1), (get_new_bot ca "crypto" s).2,
             (create_bot postOk renameOk ca w).2)
         else
           .ok (.err "having trouble starting new bot", (get_new_bot ca "crypto" s).2,
             (create_bot postOk renameOk ca w).2)) := rfl

/-- Unfolding equation of `stock` at a failed validation. -/
theorem stock_ok_none (postOk renameOk : Bool) (id : String) (s : Store) (w : World) :
    stock (.ok none) postOk renameOk id s w =
      (match check_existing_bot (strLower id) s with
       | some p => .ok (.existing (.pair p.1 p.2), s, w)
       | none => .ok (.err ("unable to validate stock id: " ++ id), s, w)) := rfl

/-- Unfolding equation of `stock` at a successful validation. -/
theorem stock_ok_some (ca cb : String) (postOk renameOk : Bool) (id : String)
    (s : Store) (w : World) :
    stock (.ok (some (ca, cb))) postOk renameOk id s w =
      (match (get_new_bot ca "stock" s).1 with
       | none => .ok (.err "no more new bots avalible", (get_new_bot ca "stock" s).2, w)
       | some bd =>
         if optStrFalsy bd.2 then
           .ok (.existing (.str bd.1), (get_new_bot ca "stock" s).2, w)
         else if (create_bot postOk renameOk ca w).1 then
           .ok (.ok (.str bd.1), (get_new_bot ca "stock" s).2,
             (create_bot postOk renameOk ca w).2)
         else
           .ok (.err "having trouble starting new bot", (get_new_bot ca "stock" s).2,
             (create_bot postOk renameOk ca w).2)) := rfl

/-- The store left by `crypto` is the input store or a `get_new_bot`
store. -/
theorem cryptoStore_cases (vres : Except PyExc (Option (String × String)))
    (postOk renameOk : Bool) (id : String) (s : Store) (w : World) :
    cryptoStore vres postOk renameOk id s w = s ∨
    ∃ c1, cryptoStore vres postOk renameOk id s w = (get_new_bot c1 "crypto" s).2 := by
  unfold cryptoStore
  cases vres with
  | error e => simp [crypto]
  | ok o =>
    cases o with
    | none =>
      rw [crypto_ok_none]
      cases check_existing_bot (strLower id) s <;> simp
    | some cd =>
      obtain ⟨ca, cb⟩ := cd
      rw [crypto_ok_some]
      refine Or.inr ⟨ca, ?_⟩
      cases (get_new_bot ca "crypto" s).1 with
      | none => simp
      | some bd =>
        by_cases hf : optStrFalsy bd.2
        · simp [hf]
        · by_cases hp : (create_bot postOk renameOk ca w).1 <;> simp [hf, hp]

/-- The store left by `stock` is the input store or a `get_new_bot`
store. -/
theorem stockStore_cases (vres : Except PyExc (Option (String × String)))
    (postOk renameOk : Bool) (id : String) (s : Store) (w : World) :
    stockStore vres postOk renameOk id s w = s ∨
    ∃ c1, stockStore vres postOk renameOk id s w = (get_new_bot c1 "stock" s).2 := by
  unfold stockStore
  cases vres with
  | error e => simp [stock]
  | ok o =>
    cases o with
    | none =>
      rw [stock_ok_none]
      cases check_existing_bot (strLower id) s <;> simp
    | some cd =>
      obtain ⟨ca, cb⟩ := cd
      rw [stock_ok_some]
      refine Or.inr ⟨ca, ?_⟩
      cases (get_new_bot ca "stock" s).1 with
      | none => simp
      | some bd =>
        by_cases hf : optStrFalsy bd.2
        · simp [hf]
        · by_cases hp : (create_bot postOk renameOk ca w).1 <;> simp [hf, hp]

/-- The store left by `add_bot` is the input store, or the input store
with the new unclaimed row appended — the latter only when neither the
client id nor the token was already present. -/
theorem add_bot_store_cases (renameOk : Bool) (cid0 tok0 : String) (s : Store) (w : World) :
    (add_bot renameOk cid0 tok0 s w).2.1 = s ∨
    ((s.any fun e => e.client_id = cid0 ∨ e.token = tok0) = false ∧
      (add_bot renameOk cid0 tok0 s w).2.1 = s ++ [⟨cid0, tok0, none, none⟩]) := by
  unfold add_bot change_bot_username insertNewbots
  by_cases hr : renameOk
  · by_cases hdup : ∃ x ∈ s, x.client_id = cid0 ∨ x.token = tok0
    · left
      simp [hr, hdup]
    · refine Or.inr ⟨?_, ?_⟩
      · simp only [List.any_eq_false, decide_eq_true_eq]
        exact fun x hx hor => hdup ⟨x, hx, hor⟩
      · simp [hr, hdup, List.length_append, Nat.add_sub_cancel_left]
  · simp [hr]

/-- Converting a valid scalar value to a character and back is the
identity. -/
theorem toNat_ofNat_valid {n : Nat} (h : n.isValidChar) : (Char.ofNat n).toNat = n := by
  unfold Char.ofNat
  rw [dif_pos h]
  rfl

/-- ASCII lower-casing of a character is idempotent. -/
theorem toLower_idem (c : Char) : c.toLower.toLower = c.toLower := by
  unfold Char.toLower
  by_cases h : c.toNat ≥ 65 ∧ c.toNat ≤ 90
  · rw [if_pos h]
    have hv : Nat.isValidChar (c.toNat + 32) := Or.inl (by omega)
    rw [toNat_ofNat_valid hv, if_neg (by omega)]
  · rw [if_neg h, if_neg h]

/-- Python `str.lower()` is idempotent. -/
theorem strLower_strLower (x : String) : strLower (strLower x) = strLower x := by
  unfold strLower
  show String.mk ((x.data.map Char.toLower).map Char.toLower) = String.mk (x.data.map Char.toLower)
  rw [List.map_map]
  exact congrArg String.mk (List.map_congr_left fun c _ => toLower_idem c)

/-- A successful `stock_validate` result is the lower-cased provider
symbol in both components; in particular its canonical id is fixed by
lower-casing. -/
theorem stock_validate_lower {r : HResp} {sa sb : String}
    (hv : stock_validate r = .ok (some (sa, sb))) : strLower sa = sa := by
  unfold stock_validate at hv
  repeat' split at hv
  all_goals
    first
    | exact Except.noConfusion hv
    | exact Option.noConfusion (Except.ok.inj hv)
    | (simp only [Except.ok.injEq, Option.some.injEq, Prod.mk.injEq] at hv
       rw [← hv.1, strLower_strLower])

/-- Re-running `get_new_bot` for an already lower-case ticker against the
store a fresh claim of that ticker produced finds the binding and returns
its client id with `None`, leaving the store unchanged. -/
theorem get_new_bot_idem {tkr ty : String} {s : Store} {cid tok : String}
    (hlow : strLower tkr = tkr)
    (h : (get_new_bot tkr ty s).1 = some (cid, some tok)) :
    get_new_bot tkr ty (get_new_bot tkr ty s).2 = (some (cid, none), (get_new_bot tkr ty s).2) := by
  obtain ⟨nb, hce, hsu, hcid, htok, hst⟩ := get_new_bot_fresh h
  obtain ⟨hnbmem, hnbt⟩ := selectUnclaimed_eq_some hsu
  have hnone : ∀ x ∈ s, x.ticker ≠ some tkr := check_existing_bot_eq_none.mp hce
  obtain ⟨e0, hsel, he0⟩ := @selectByTicker_after_claim s nb tkr ty hnbmem hnone
  have hupd : (get_new_bot tkr ty s).2 = updateByClientId nb.client_id tkr ty s := by
    rw [hst, hlow]
  rw [← hupd] at hsel
  have hce2 : check_existing_bot tkr (get_new_bot tkr ty s).2 =
      some (e0.client_id, e0.token) := by
    unfold check_existing_bot
    rw [hsel]
  have hecid : e0.client_id = cid := by
    rw [he0, ← hcid]
  generalize hgen : (get_new_bot tkr ty s).2 = sAfter at hce2 ⊢
  simp [get_new_bot, hce2, hecid]

/-- Inversion of a `crypto` request that answered plain success: the
claim path ran, returning the answered client id with a token, and the
response store is the claimed one. -/
theorem crypto_first_ok_inv {ca cb id cid : String} {postOk renameOk : Bool}
    {s s2 : Store} {w w2 : World}
    (h1 : crypto (.ok (some (ca, cb))) postOk renameOk id s w = .ok (.ok (.str cid), s2, w2)) :
    ∃ tok, (get_new_bot ca "crypto" s).1 = some (cid, some tok) ∧
      (get_new_bot ca "crypto" s).2 = s2 := by
  rw [crypto_ok_some] at h1
  split at h1
  · simp at h1
  · rename_i bd hg
    by_cases hf : optStrFalsy bd.2
    · rw [if_pos hf] at h1; simp at h1
    · rw [if_neg hf] at h1
      by_cases hp : (create_bot postOk renameOk ca w).1
      · rw [if_pos hp] at h1
        simp only [Except.ok.injEq, Prod.mk.injEq, AllocResp.ok.injEq, CidField.str.injEq] at h1
        obtain ⟨hcid, hs2, hw2⟩ := h1
        obtain ⟨bdc, bdt⟩ := bd
        cases bdt with
        | none => exact absurd rfl hf
        | some tok =>
          refine ⟨tok, ?_, hs2⟩
          rw [hg]
          simp only [Option.some.injEq, Prod.mk.injEq]
          exact ⟨hcid, trivial⟩
      · rw [if_neg hp] at h1; simp at h1

/-- Inversion of a `stock` request that answered plain success. -/
theorem stock_first_ok_inv {ca cb id cid : String} {postOk renameOk : Bool}
    {s s2 : Store} {w w2 : World}
    (h1 : stock (.ok (some (ca, cb))) postOk renameOk id s w = .ok (.ok (.str cid), s2, w2)) :
    ∃ tok, (get_new_bot ca "stock" s).1 = some (cid, some tok) ∧
      (get_new_bot ca "stock" s).2 = s2 := by
  rw [stock_ok_some] at h1
  split at h1
  · simp at h1
  · rename_i bd hg
    by_cases hf : optStrFalsy bd.2
    · rw [if_pos hf] at h1; simp at h1
    · rw [if_neg hf] at h1
      by_cases hp : (create_bot postOk renameOk ca w).1
      · rw [if_pos hp] at h1
        simp only [Except.ok.injEq, Prod.mk.injEq, AllocResp.ok.injEq, CidField.str.injEq] at h1
        obtain ⟨hcid, hs2, hw2⟩ := h1
        obtain ⟨bdc, bdt⟩ := bd
        cases bdt with
        | none => exact absurd rfl hf
        | some tok =>
          refine ⟨tok, ?_, hs2⟩
          rw [hg]
          simp only [Option.some.injEq, Prod.mk.injEq]
          exact ⟨hcid, trivial⟩
      · rw [if_neg hp] at h1; simp at h1

/-- A `crypto` request whose `get_new_bot` call reports an existing
binding answers that client id with the existing flag and the store
`get_new_bot` returned. -/
theorem crypto_second_existing {ca cb id cid : String} {postOk renameOk : Bool}
    {s2 : Store} {w2 : World}
    (hidem : get_new_bot ca "crypto" s2 = (some (cid, none), s2)) :
    crypto (.ok (some (ca, cb))) postOk renameOk id s2 w2 =
      .ok (.existing (.str cid), s2, w2) := by
  have h1 : (get_new_bot ca "crypto" s2).1 = some (cid, none) := by rw [hidem]
  have h2 : (get_new_bot ca "crypto" s2).2 = s2 := by rw [hidem]
  rw [crypto_ok_some, h1, h2]
  simp [optStrFalsy]

/-- A `stock` request whose `get_new_bot` call reports an existing
binding answers that client id with the existing flag and the store
`get_new_bot` returned. -/
theorem stock_second_existing {ca cb id cid : String} {postOk renameOk : Bool}
    {s2 : Store} {w2 : World}
    (hidem : get_new_bot ca "stock" s2 = (some (cid, none), s2)) :
    stock (.ok (some (ca, cb))) postOk renameOk id s2 w2 =
      .ok (.existing (.str cid), s2, w2) := by
  have h1 : (get_new_bot ca "stock" s2).1 = some (cid, none) := by rw [hidem]
  have h2 : (get_new_bot ca "stock" s2).2 = s2 := by rw [hidem]
  rw [stock_ok_some, h1, h2]
  simp [optStrFalsy]

/-! Claim theorems. -/

/-- C1: against the claim, the claim protocol is not race-safe.  With a
single unclaimed entry `("A", "T")` and two interleaved `get_new_bot`
calls (both SELECTs before either UPDATE — each database statement
executed atomically), *both* callers receive the same entry
`("A", some "T")` instead of exactly one success and one pool-exhaustion:
the UPDATE is keyed on `client_id` alone, without the null-ticker guard,
so the second UPDATE also reports a nonzero rowcount and additionally
overwrites the first caller's binding with its own ticker. -/
theorem c1_race_double_claim :
    (runTwo [true, false, true, false, true, false] [⟨"A", "T", none, none⟩]
      ⟨"abc", "crypto", 0, none, none⟩ ⟨"xyz", "crypto", 0, none, none⟩).2.1.res =
        some (some ("A", some "T")) ∧
    (runTwo [true, false, true, false, true, false] [⟨"A", "T", none, none⟩]
      ⟨"abc", "crypto", 0, none, none⟩ ⟨"xyz", "crypto", 0, none, none⟩).2.2.res =
        some (some ("A", some "T")) ∧
    (runTwo [true, false, true, false, true, false] [⟨"A", "T", none, none⟩]
      ⟨"abc", "crypto", 0, none, none⟩ ⟨"xyz", "crypto", 0, none, none⟩).1 =
        [⟨"A", "T", some "xyz", some "crypto"⟩] := ⟨rfl, rfl, rfl⟩

/-- C3 (counterexample): two sequential allocation requests for the same
validated ticker do *not* always return the same client id with
`existing: true`.  When the validator's canonical id is not all
lower-case (here `"Abc"`), the claim stores the lower-cased ticker
`"abc"` but the second request's exact-match lookup searches for `"Abc"`,
misses, and consumes a second pool entry, answering a different client
id without the `existing` flag. -/
theorem c3_counterexample :
    crypto (.ok (some ("Abc", "ABC"))) true true "Abc"
        [⟨"A", "TA", none, none⟩, ⟨"B", "TB", none, none⟩] ⟨none⟩ =
      .ok (.ok (.str "A"),
        [⟨"A", "TA", some "abc", some "crypto"⟩, ⟨"B", "TB", none, none⟩], ⟨some "ABC"⟩) ∧
    crypto (.ok (some ("Abc", "ABC"))) true true "Abc"
        [⟨"A", "TA", some "abc", some "crypto"⟩, ⟨"B", "TB", none, none⟩] ⟨some "ABC"⟩ =
      .ok (.ok (.str "B"),
        [⟨"A", "TA", some "abc", some "crypto"⟩, ⟨"B", "TB", some "abc", some "crypto"⟩],
        ⟨some "ABC"⟩) := ⟨rfl, rfl⟩

/-- C4 (counterexample): a failed rename does *not* make the allocation
report the "trouble starting new bot" error.  With the ticker-service
POST succeeding and the rename failing (`renameOk = false`), the
allocation still reports plain success `{client_id: "A"}`, because
`create_bot` discards the result of `change_bot_username`. -/
theorem c4_counterexample :
    crypto (.ok (some ("abc", "ABC"))) true false "abc" [⟨"A", "T", none, none⟩] ⟨none⟩ =
      .ok (.ok (.str "A"), [⟨"A", "T", some "abc", some "crypto"⟩], ⟨none⟩) := rfl

/-- C5: on the validation-failure fallback path, `stock` answers with the
*whole* `(client_id, token)` pair in the `client_id` field (leaking the
secret token), instead of the bound entry's client id alone — the source
returns `possible_id` where `crypto` returns `possible_id[0]`. -/
theorem c5_stock_fallback_returns_pair :
    stock (.ok none) true true "abc" [⟨"A", "T", some "abc", some "stock"⟩] ⟨none⟩ =
      .ok (.existing (.pair "A" "T"), [⟨"A", "T", some "abc", some "stock"⟩], ⟨none⟩) := rfl

/-- C6 (counterexample): lookups for the same ticker in different cases
do *not* agree: `check_existing_bot` matches the ticker exactly as given,
so a store holding the claimed (lower-cased) ticker `"abc"` answers the
lookup for `"abc"` but not the one for `"ABC"`. -/
theorem c6_counterexample :
    check_existing_bot "ABC" [⟨"A", "T", some "abc", some "crypto"⟩] = none ∧
    check_existing_bot "abc" [⟨"A", "T", some "abc", some "crypto"⟩] = some ("A", "T") :=
  ⟨rfl, rfl⟩

/-- C8 (counterexample): a well-formed JSON payload missing the expected
fields makes both validators *raise* (`KeyError`) instead of returning
the empty/invalid result: the subscripts sit outside the `try` block. -/
theorem c8_counterexample :
    crypto_validate (.ok (J.obj [])) = .error .keyError ∧
    stock_validate (.ok (J.obj [])) = .error .keyError := ⟨rfl, rfl⟩

/-- C9: registering a credential whose client id or token already exists
does not return a declined-insert failure — it raises an uncaught
`IntegrityError` (the `rowcount == 0` check after the INSERT is dead
code).  The existing rows are left unchanged, and the liveness-check
rename has already mutated the external bot name. -/
theorem c9_duplicate_insert_raises :
    add_bot true "A" "T2" [⟨"A", "T", none, none⟩] ⟨none⟩ =
      (.error .integrityError, [⟨"A", "T", none, none⟩], ⟨some "NEW TICKER BOT"⟩) := rfl

/-- C7: against a store with zero unclaimed entries and no binding for
the requested ticker, `get_new_bot` returns the empty pool-exhaustion
result (no exception — it is a total function on this path) with the
store unchanged, and both allocation entry points report their
"no bots available" error, again leaving the store unchanged. -/
theorem c7_pool_exhaustion (tkr disp typ id : String) (s : Store)
    (postOk renameOk : Bool) (w : World)
    (hall : ∀ e ∈ s, e.ticker ≠ none)
    (hnb : ∀ e ∈ s, e.ticker ≠ some tkr) :
    get_new_bot tkr typ s = (none, s) ∧
    crypto (.ok (some (tkr, disp))) postOk renameOk id s w =
      .ok (.err "there are no more unclaimed bots. come back tomorrow and there might be more available",
        s, w) ∧
    stock (.ok (some (tkr, disp))) postOk renameOk id s w =
      .ok (.err "no more new bots avalible", s, w) := by
  have hce : check_existing_bot tkr s = none := check_existing_bot_eq_none.mpr hnb
  have hsu : selectUnclaimed s = none := by
    unfold selectUnclaimed
    rw [List.head?_eq_none_iff, List.filter_eq_nil_iff]
    intro a ha
    simpa using hall a ha
  have hg : ∀ ty, get_new_bot tkr ty s = (none, s) := by
    intro ty
    simp [get_new_bot, hce, hsu]
  refine ⟨hg typ, ?_, ?_⟩
  · rw [crypto_ok_some]
    simp [hg "crypto"]
  · rw [stock_ok_some]
    simp [hg "stock"]

/-- C7 witness: a concrete fully-claimed one-row pool and the unbound
ticker "abc". -/
theorem c7_pool_exhaustion_witness :
    get_new_bot "abc" "crypto" [⟨"B", "U", some "xyz", some "stock"⟩] =
      (none, [⟨"B", "U", some "xyz", some "stock"⟩]) ∧
    crypto (.ok (some ("abc", "ABC"))) true true "abc"
        [⟨"B", "U", some "xyz", some "stock"⟩] ⟨none⟩ =
      .ok (.err "there are no more unclaimed bots. come back tomorrow and there might be more available",
        [⟨"B", "U", some "xyz", some "stock"⟩], ⟨none⟩) ∧
    stock (.ok (some ("abc", "ABC"))) true true "abc"
        [⟨"B", "U", some "xyz", some "stock"⟩] ⟨none⟩ =
      .ok (.err "no more new bots avalible", [⟨"B", "U", some "xyz", some "stock"⟩], ⟨none⟩) :=
  c7_pool_exhaustion "abc" "ABC" "crypto" "abc" [⟨"B", "U", some "xyz", some "stock"⟩]
    true true ⟨none⟩ (by decide) (by decide)

/-- C10: `add_bot` performs its liveness-check rename (setting the
external bot's display name to 'NEW TICKER BOT', the upper-casing of the
'new ticker bot' it sends) before attempting the insert; on a
registration whose insert fails with a uniqueness violation, the rename
is not undone — the world already carries the new name while the store is
unchanged and the result is the raised integrity error. -/
theorem c10_rename_precedes_insert (cid0 tok0 : String) (s : Store) (w : World)
    (hdup : ∃ e ∈ s, e.client_id = cid0 ∨ e.token = tok0) :
    add_bot true cid0 tok0 s w = (.error .integrityError, s, ⟨some "NEW TICKER BOT"⟩) := by
  have h : strUpper "new ticker bot" = "NEW TICKER BOT" := rfl
  unfold add_bot change_bot_username insertNewbots
  simp [hdup, h]

/-- C10 witness: registering a duplicate client id. -/
theorem c10_rename_precedes_insert_witness :
    add_bot true "A" "T9" [⟨"A", "T", none, none⟩] ⟨none⟩ =
      (.error .integrityError, [⟨"A", "T", none, none⟩], ⟨some "NEW TICKER BOT"⟩) :=
  c10_rename_precedes_insert "A" "T9" [⟨"A", "T", none, none⟩] ⟨none⟩
    ⟨⟨"A", "T", none, none⟩, by decide, by decide⟩

/-- C2: in a store whose client ids are pairwise distinct (the schema's
uniqueness invariant), once a row's ticker is set, no operation of the
core changes it: `get_new_bot`, the full `crypto` and `stock` requests
(in particular with a failed branding — `postOk`/`renameOk` are
arbitrary, so the claim is never rolled back) and `add_bot` all leave
every row carrying that client id with the same ticker, and no row is
dropped (the store never shrinks). -/
theorem c2_ticker_never_changed
    (vres : Except PyExc (Option (String × String))) (postOk renameOk : Bool)
    (tkr typ id cid0 tok0 : String) (s : Store) (w : World)
    (hnd : (s.map PoolEntry.client_id).Nodup)
    (e : PoolEntry) (he : e ∈ s) (t : String) (ht : e.ticker = some t)
    (e2 : PoolEntry) :
    (e2 ∈ (get_new_bot tkr typ s).2 → e2.client_id = e.client_id → e2.ticker = some t) ∧
    (get_new_bot tkr typ s).2.length = s.length ∧
    (e2 ∈ cryptoStore vres postOk renameOk id s w → e2.client_id = e.client_id →
      e2.ticker = some t) ∧
    (e2 ∈ stockStore vres postOk renameOk id s w → e2.client_id = e.client_id →
      e2.ticker = some t) ∧
    (e2 ∈ (add_bot renameOk cid0 tok0 s w).2.1 → e2.client_id = e.client_id →
      e2.ticker = some t) ∧
    s.length ≤ (add_bot renameOk cid0 tok0 s w).2.1.length := by
  have keyS : ∀ e2', e2' ∈ s → e2'.client_id = e.client_id → e2'.ticker = some t := by
    intro e2' hm hcid
    rw [eq_of_client_id_of_nodup hnd hm he hcid]
    exact ht
  have key : ∀ tk ty, e2 ∈ (get_new_bot tk ty s).2 → e2.client_id = e.client_id →
      e2.ticker = some t := by
    intro tk ty hmem hcid
    rcases get_new_bot_store_cases tk ty s with hs | ⟨nb, hsu, hs⟩
    · rw [hs] at hmem
      exact keyS e2 hmem hcid
    · rw [hs] at hmem
      obtain ⟨hnbmem, hnbt⟩ := selectUnclaimed_eq_some hsu
      obtain ⟨a, ha, hae⟩ := mem_updateByClientId hmem
      by_cases hc : a.client_id = nb.client_id
      · exfalso
        rw [hae, if_pos hc] at hcid
        have hnbe : nb = e := eq_of_client_id_of_nodup hnd hnbmem he (by rw [← hc]; exact hcid)
        rw [hnbe, ht] at hnbt
        exact Option.noConfusion hnbt
      · rw [hae, if_neg hc] at hcid ⊢
        exact keyS a ha hcid
  have len : ∀ tk ty, (get_new_bot tk ty s).2.length = s.length := by
    intro tk ty
    rcases get_new_bot_store_cases tk ty s with hs | ⟨nb, _, hs⟩
    · rw [hs]
    · rw [hs, updateByClientId_length]
  refine ⟨key tkr typ, len tkr typ, ?_, ?_, ?_, ?_⟩
  · intro hmem hcid
    rcases cryptoStore_cases vres postOk renameOk id s w with hs | ⟨ca, hs⟩
    · rw [hs] at hmem
      exact keyS e2 hmem hcid
    · rw [hs] at hmem
      exact key ca "crypto" hmem hcid
  · intro hmem hcid
    rcases stockStore_cases vres postOk renameOk id s w with hs | ⟨ca, hs⟩
    · rw [hs] at hmem
      exact keyS e2 hmem hcid
    · rw [hs] at hmem
      exact key ca "stock" hmem hcid
  · intro hmem hcid
    rcases add_bot_store_cases renameOk cid0 tok0 s w with hs | ⟨hfresh, hs⟩
    · rw [hs] at hmem
      exact keyS e2 hmem hcid
    · rw [hs] at hmem
      rcases List.mem_append.mp hmem with hmem' | hmem'
      · exact keyS e2 hmem' hcid
      · exfalso
        have he2 : e2 = ⟨cid0, tok0, none, none⟩ := by simpa using hmem'
        rw [List.any_eq_false] at hfresh
        have hne := hfresh e he
        simp only [decide_eq_true_eq] at hne
        exact hne (Or.inl (by rw [← hcid, he2]))
  · rcases add_bot_store_cases renameOk cid0 tok0 s w with hs | ⟨_, hs⟩
    · rw [hs]
    · rw [hs, List.length_append]
      exact Nat.le_add_right _ _

/-- C2 witness: a one-row store with a claimed entry, exercised against
a pool-exhausted crypto request, a stock request, and a registration of
a fresh credential. -/
theorem c2_ticker_never_changed_witness :
    ((⟨"A", "TA", some "abc", some "crypto"⟩ : PoolEntry) ∈
        (get_new_bot "xyz" "crypto" [⟨"A", "TA", some "abc", some "crypto"⟩]).2 →
      ("A" : String) = "A" → (some "abc" : Option String) = some "abc") ∧
    (get_new_bot "xyz" "crypto" [⟨"A", "TA", some "abc", some "crypto"⟩]).2.length = 1 ∧
    ((⟨"A", "TA", some "abc", some "crypto"⟩ : PoolEntry) ∈
        cryptoStore (.ok (some ("xyz", "XYZ"))) true true "xyz"
          [⟨"A", "TA", some "abc", some "crypto"⟩] ⟨none⟩ →
      ("A" : String) = "A" → (some "abc" : Option String) = some "abc") ∧
    ((⟨"A", "TA", some "abc", some "crypto"⟩ : PoolEntry) ∈
        stockStore (.ok (some ("xyz", "XYZ"))) true true "xyz"
          [⟨"A", "TA", some "abc", some "crypto"⟩] ⟨none⟩ →
      ("A" : String) = "A" → (some "abc" : Option String) = some "abc") ∧
    ((⟨"A", "TA", some "abc", some "crypto"⟩ : PoolEntry) ∈
        (add_bot true "C" "TC" [⟨"A", "TA", some "abc", some "crypto"⟩] ⟨none⟩).2.1 →
      ("A" : String) = "A" → (some "abc" : Option String) = some "abc") ∧
    ([⟨"A", "TA", some "abc", some "crypto"⟩] : Store).length ≤
      (add_bot true "C" "TC" [⟨"A", "TA", some "abc", some "crypto"⟩] ⟨none⟩).2.1.length :=
  c2_ticker_never_changed (.ok (some ("xyz", "XYZ"))) true true "xyz" "crypto" "xyz" "C" "TC"
    [⟨"A", "TA", some "abc", some "crypto"⟩] ⟨none⟩ (by decide)
    ⟨"A", "TA", some "abc", some "crypto"⟩ (by decide) "abc" rfl
    ⟨"A", "TA", some "abc", some "crypto"⟩

/-- C3 (amended): when the validator's canonical id is already
lower-case, a second allocation request for the same validated ticker —
through either entry point — run against the store and world left by a
first request that answered plain success `{client_id: cid}`, answers
the same `cid` marked `existing: true` and consumes no second pool entry
(the store is returned unchanged).  The lower-case hypothesis is always
satisfied for stock: every successful `stock_validate` canonical id is
fixed by lower-casing (last conjunct); for crypto it holds whenever the
catalog id is lower-case. -/
theorem c3_idempotent_allocation
    (ca cb id cidC cidS sa sb : String) (postOk renameOk : Bool)
    (s s2C s2S : Store) (w w2C w2S : World) (r : HResp)
    (hlow : strLower ca = ca)
    (h1C : crypto (.ok (some (ca, cb))) postOk renameOk id s w =
      .ok (.ok (.str cidC), s2C, w2C))
    (h1S : stock (.ok (some (ca, cb))) postOk renameOk id s w =
      .ok (.ok (.str cidS), s2S, w2S))
    (hv : stock_validate r = .ok (some (sa, sb))) :
    crypto (.ok (some (ca, cb))) postOk renameOk id s2C w2C =
      .ok (.existing (.str cidC), s2C, w2C) ∧
    stock (.ok (some (ca, cb))) postOk renameOk id s2S w2S =
      .ok (.existing (.str cidS), s2S, w2S) ∧
    strLower sa = sa := by
  refine ⟨?_, ?_, stock_validate_lower hv⟩
  · obtain ⟨tok, hg, hs2⟩ := crypto_first_ok_inv h1C
    have hidem := get_new_bot_idem hlow hg
    rw [hs2] at hidem
    exact crypto_second_existing hidem
  · obtain ⟨tok, hg, hs2⟩ := stock_first_ok_inv h1S
    have hidem := get_new_bot_idem hlow hg
    rw [hs2] at hidem
    exact stock_second_existing hidem

/-- C3 witness: a fresh two-entry pool; the first crypto and stock
requests each claim entry "A" for ticker "abc"; both second requests
answer "A" with the existing flag, leaving their stores as the first
requests left them; and a successful stock validation payload yields the
lower-cased symbol. -/
theorem c3_idempotent_allocation_witness :
    crypto (.ok (some ("abc", "ABC"))) true true "abc"
        [⟨"A", "TA", some "abc", some "crypto"⟩, ⟨"B", "TB", none, none⟩] ⟨some "ABC"⟩ =
      .ok (.existing (.str "A"),
        [⟨"A", "TA", some "abc", some "crypto"⟩, ⟨"B", "TB", none, none⟩], ⟨some "ABC"⟩) ∧
    stock (.ok (some ("abc", "ABC"))) true true "abc"
        [⟨"A", "TA", some "abc", some "stock"⟩, ⟨"B", "TB", none, none⟩] ⟨some "ABC"⟩ =
      .ok (.existing (.str "A"),
        [⟨"A", "TA", some "abc", some "stock"⟩, ⟨"B", "TB", none, none⟩], ⟨some "ABC"⟩) ∧
    strLower "abc" = "abc" :=
  c3_idempotent_allocation "abc" "ABC" "abc" "A" "A" "abc" "abc" true true
    [⟨"A", "TA", none, none⟩, ⟨"B", "TB", none, none⟩]
    [⟨"A", "TA", some "abc", some "crypto"⟩, ⟨"B", "TB", none, none⟩]
    [⟨"A", "TA", some "abc", some "stock"⟩, ⟨"B", "TB", none, none⟩]
    ⟨none⟩ ⟨some "ABC"⟩ ⟨some "ABC"⟩
    (.ok (J.obj [("quoteSummary", J.obj [("error", J.null),
      ("result", J.arr [J.obj [("price",
        J.obj [("currencySymbol", J.str "$"), ("symbol", J.str "ABC")])]])])]))
    (by decide) rfl rfl rfl

/-- C4 (amended): the outcome of an allocation that claims a fresh pool
entry — through either entry point — depends only on the ticker-service
creation POST: success when the POST succeeds, the "having trouble
starting new bot" error when it fails.  The rename outcome (`renameOk`,
universally quantified and absent from the response) does not influence
the outcome, because `create_bot` discards the result of
`change_bot_username`; it only affects the external world component. -/
theorem c4_outcome_ignores_rename
    (ca cb id cid tok : String) (postOk renameOk : Bool) (s : Store) (w : World)
    (hfreshC : (get_new_bot ca "crypto" s).1 = some (cid, some tok))
    (hfreshS : (get_new_bot ca "stock" s).1 = some (cid, some tok))
    (htok : tok.isEmpty = false) :
    crypto (.ok (some (ca, cb))) postOk renameOk id s w =
      .ok ((if postOk then AllocResp.ok (.str cid) else .err "having trouble starting new bot"),
        (get_new_bot ca "crypto" s).2, (create_bot postOk renameOk ca w).2) ∧
    stock (.ok (some (ca, cb))) postOk renameOk id s w =
      .ok ((if postOk then AllocResp.ok (.str cid) else .err "having trouble starting new bot"),
        (get_new_bot ca "stock" s).2, (create_bot postOk renameOk ca w).2) := by
  have hf : optStrFalsy (some tok) = false := htok
  constructor
  · rw [crypto_ok_some, hfreshC]
    cases postOk with
    | true => simp [hf, create_bot]
    | false => simp [hf, create_bot]
  · rw [stock_ok_some, hfreshS]
    cases postOk with
    | true => simp [hf, create_bot]
    | false => simp [hf, create_bot]

/-- C4 witness: the fresh claim of entry "A" through both entry points
with the POST succeeding and the rename failing. -/
theorem c4_outcome_ignores_rename_witness :
    (crypto (.ok (some ("abc", "ABC"))) true false "abc" [⟨"A", "T", none, none⟩] ⟨none⟩ =
      .ok ((if (true : Bool) then AllocResp.ok (.str "A")
          else .err "having trouble starting new bot"),
        (get_new_bot "abc" "crypto" [⟨"A", "T", none, none⟩]).2,
        (create_bot true false "abc" ⟨none⟩).2)) ∧
    (stock (.ok (some ("abc", "ABC"))) true false "abc" [⟨"A", "T", none, none⟩] ⟨none⟩ =
      .ok ((if (true : Bool) then AllocResp.ok (.str "A")
          else .err "having trouble starting new bot"),
        (get_new_bot "abc" "stock" [⟨"A", "T", none, none⟩]).2,
        (create_bot true false "abc" ⟨none⟩).2)) :=
  c4_outcome_ignores_rename "abc" "ABC" "abc" "A" "T" true false
    [⟨"A", "T", none, none⟩] ⟨none⟩ rfl rfl rfl

/-- C6 (amended): `get_new_bot` writes the lower-cased ticker when it
claims — every row of the result store carrying the claimed client id
has ticker `strLower tkr` — while `check_existing_bot` matches the
ticker exactly as given, with no normalization (it is literally the
first filter match on the un-lowered argument); agreement across cases
therefore holds only when callers lower-case before looking up, as
`crypto` and `stock` do when they call it directly. -/
theorem c6_claim_writes_lower_lookup_exact
    (tkr typ cid tok : String) (s : Store)
    (hfresh : (get_new_bot tkr typ s).1 = some (cid, some tok))
    (e2 : PoolEntry) (he2 : e2 ∈ (get_new_bot tkr typ s).2) (hc : e2.client_id = cid) :
    e2.ticker = some (strLower tkr) ∧
    check_existing_bot tkr s =
      ((s.filter fun e => e.ticker = some tkr).head?).map (fun e => (e.client_id, e.token)) := by
  constructor
  · obtain ⟨nb, hce, hsu, hcid, htok2, hst⟩ := get_new_bot_fresh hfresh
    rw [hst] at he2
    obtain ⟨a, ha, hae⟩ := mem_updateByClientId he2
    by_cases hac : a.client_id = nb.client_id
    · rw [hae, if_pos hac]
    · exfalso
      rw [hae, if_neg hac] at hc
      exact hac (hc.trans hcid)
  · unfold check_existing_bot selectByTicker
    cases (s.filter fun e => e.ticker = some tkr).head? <;> rfl

/-- C6 witness: claiming "ABC" stores "abc", and the exact-match lookup
characterization at "ABC" over a one-row unclaimed store. -/
theorem c6_claim_writes_lower_lookup_exact_witness :
    (⟨"A", "T", some "abc", some "crypto"⟩ : PoolEntry).ticker = some (strLower "ABC") ∧
    check_existing_bot "ABC" [⟨"A", "T", none, none⟩] =
      (([⟨"A", "T", none, none⟩] : Store).filter fun e => e.ticker = some "ABC").head?.map
        (fun e => (e.client_id, e.token)) :=
  c6_claim_writes_lower_lookup_exact "ABC" "crypto" "A" "T" [⟨"A", "T", none, none⟩] rfl
    ⟨"A", "T", some "abc", some "crypto"⟩ (by decide) rfl

/-- C8 (amended): transport errors, non-success statuses and JSON-parse
failures are all converted by both validators to the empty/invalid
result, as are stock's provider-error-flag and missing-currency-field
cases; but an exception raised during validation (e.g. the `KeyError` of
`c8_counterexample`, on a parsed payload missing an expected field)
propagates uncaught through the `crypto` and `stock` entry points, which
install no handler. -/
theorem c8_validators_structured_failures
    (d1 qs1 er1 d2 qs2 er2 res2 r02 : J) (kvs2 : List (String × J))
    (exc : PyExc) (postOk renameOk : Bool) (id : String) (s : Store) (w : World)
    (h11 : jget d1 "quoteSummary" = .ok qs1) (h12 : jget qs1 "error" = .ok er1)
    (h13 : jTruthy er1 = true)
    (h21 : jget d2 "quoteSummary" = .ok qs2) (h22 : jget qs2 "error" = .ok er2)
    (h23 : jTruthy er2 = false)
    (h24 : jget qs2 "result" = .ok res2) (h25 : jindex res2 0 = .ok r02)
    (h26 : jget r02 "price" = .ok (J.obj kvs2))
    (h27 : (kvs2.any fun kv => kv.1 = "currencySymbol") = false) :
    crypto_validate .fail = .ok none ∧
    stock_validate .fail = .ok none ∧
    stock_validate (.ok d1) = .ok none ∧
    stock_validate (.ok d2) = .ok none ∧
    crypto (.error exc) postOk renameOk id s w = .error exc ∧
    stock (.error exc) postOk renameOk id s w = .error exc := by
  refine ⟨rfl, rfl, ?_, ?_, rfl, rfl⟩
  · simp [stock_validate, h11, h12, h13]
  · simp [stock_validate, h21, h22, h23, h24, h25, h26, jHasMember, h27]

/-- C8 witness: a provider-error payload and a payload whose price
record lacks the currency field. -/
theorem c8_validators_structured_failures_witness :
    crypto_validate .fail = .ok none ∧
    stock_validate .fail = .ok none ∧
    stock_validate (.ok (J.obj [("quoteSummary", J.obj [("error", J.bool true)])])) = .ok none ∧
    stock_validate (.ok (J.obj [("quoteSummary",
      J.obj [("error", J.null),
        ("result", J.arr [J.obj [("price", J.obj [])]])])])) = .ok none ∧
    crypto (.error .keyError) true true "abc" [] ⟨none⟩ = .error .keyError ∧
    stock (.error .keyError) true true "abc" [] ⟨none⟩ = .error .keyError :=
  c8_validators_structured_failures
    (J.obj [("quoteSummary", J.obj [("error", J.bool true)])])
    (J.obj [("error", J.bool true)]) (J.bool true)
    (J.obj [("quoteSummary", J.obj [("error", J.null),
      ("result", J.arr [J.obj [("price", J.obj [])]])])])
    (J.obj [("error", J.null), ("result", J.arr [J.obj [("price", J.obj [])]])])
    J.null (J.arr [J.obj [("price", J.obj [])]]) (J.obj [("price", J.obj [])]) []
    .keyError true true "abc" [] ⟨none⟩
    rfl rfl rfl rfl rfl rfl rfl rfl rfl rfl



end TickerBot
